import Mathlib

/-!
Shallow embedding of the IPC warehouse simulation (conveyor belt, dispatcher,
dock, truck, express lane, session registry, semaphore facade).

Conventions of the embedding:
* C `double` fields are modelled as exact rationals (`ℚ`); the literal `0.99`
  of the source is rendered as `99/100`.
* C `int` counters that the code keeps non-negative (`head`, `tail`,
  `current_items_count`, `total_packages_created`, `trucks_completed`) are
  modelled as `Nat`; pids and capacities that are compared with `<` are kept
  as `Int`.
* The fixed C array `Package belt[MAX_BELT_CAPACITY_K]` is modelled as a total
  function `Nat → Package`; `memset(..., 0, sizeof(Package))` becomes writing
  `zeroPackage`.
* The bounded audit array `history[MAX_PACKAGE_HISTORY]` plus `history_count`
  is modelled as a list holding the first `history_count` records.
* Blocking semaphore waits are modelled at the trace level: an operation of a
  trace runs only after its wait would have succeeded, and the source-level
  in-mutex re-checks are translated verbatim.
-/

namespace Warehouse

/-- Constant `MAX_BELT_CAPACITY_K` from Shared.h. -/
def MAX_BELT_CAPACITY_K : Nat := 10

/-- Constant `MAX_BELT_WEIGHT_M` from Shared.h. -/
def MAX_BELT_WEIGHT_M : ℚ := 100

/-- Constant `MAX_PACKAGE_HISTORY` from Shared.h. -/
def MAX_PACKAGE_HISTORY : Nat := 6

/-- Constant `MAX_USERS_SESSIONS` from Shared.h. -/
def MAX_USERS_SESSIONS : Nat := 5

/-- Value `SIGNAL_DEPARTURE` of `enum SignalType` in Shared.h. -/
def SIGNAL_DEPARTURE : Nat := 1

/-- Value `SIGNAL_END_WORK` of `enum SignalType` in Shared.h. -/
def SIGNAL_END_WORK : Nat := 3

/-- One entry of the package audit trail (`struct ActionRecord` in Shared.h);
`type` is the `ActionType` bitmask. -/
structure ActionRecord where
  type : Nat
  actor_pid : Int
  timestamp : Int
deriving DecidableEq

/-- The core data unit (`struct Package` in Shared.h). The field `ptype`
renders the C field `type` (a `PackageType` bitmask); `history` models the
bounded audit array together with `history_count`. -/
structure Package where
  id : Nat
  creator_pid : Int
  editor_pid : Int
  ptype : Nat
  status : Nat
  weight : ℚ
  volume : ℚ
  created_at : Int
  updated_at : Int
  history : List ActionRecord
deriving DecidableEq

/-- The all-zero package produced by `memset(&slot, 0, sizeof(Package))`. -/
def zeroPackage : Package :=
  { id := 0, creator_pid := 0, editor_pid := 0, ptype := 0, status := 0,
    weight := 0, volume := 0, created_at := 0, updated_at := 0, history := [] }

/-- The belt-related slice of `struct SharedState` (Shared.h): the circular
buffer, its indices and counters. -/
structure BeltState where
  belt : Nat → Package
  head : Nat
  tail : Nat
  current_items_count : Nat
  current_belt_weight : ℚ
  total_packages_created : Nat

/-- Array store `belt[i] = p`. -/
def setSlot (b : Nat → Package) (i : Nat) (p : Package) : Nat → Package :=
  fun j => if j = i then p else b j

/-- The belt state written by `Manager::initResources` (memset of the whole
segment: all slots zeroed, indices and counters zero). -/
def initBeltState : BeltState :=
  { belt := fun _ => zeroPackage, head := 0, tail := 0,
    current_items_count := 0, current_belt_weight := 0,
    total_packages_created := 0 }

/-- Outcome of `Belt::push` after the empty-slot wait and mutex acquisition:
either the in-mutex capacity re-check fires (the function unlocks, re-posts
the empty semaphore and returns, dropping the package and leaving the belt
unchanged), or the package is stored. -/
inductive PushResult where
  | rejectedFull (s : BeltState)
  | pushed (s : BeltState)

/-- Boolean discriminator of `PushResult`. -/
def PushResult.isPushed : PushResult → Bool
  | .pushed _ => true
  | .rejectedFull _ => false

/-- State carried by a `PushResult`. -/
def PushResult.state : PushResult → BeltState
  | .pushed s => s
  | .rejectedFull s => s

/-- Body of `Belt::push` (Belt.h lines 156-193) between lock and unlock:
reject if `current_items_count >= MAX_BELT_CAPACITY_K`; otherwise increment
`total_packages_created`, assign `pkg.id`, store at `tail`, advance `tail`
mod K, bump the count and the running weight. -/
def Belt.push (s : BeltState) (pkg : Package) : PushResult :=
  if MAX_BELT_CAPACITY_K ≤ s.current_items_count then
    PushResult.rejectedFull s
  else
    let total := s.total_packages_created + 1
    let pkg2 := { pkg with id := total }
    let current_tail := s.tail
    PushResult.pushed
      { s with
        total_packages_created := total
        belt := setSlot s.belt current_tail pkg2
        tail := (current_tail + 1) % MAX_BELT_CAPACITY_K
        current_items_count := s.current_items_count + 1
        current_belt_weight := s.current_belt_weight + pkg2.weight }

/-- Body of `Belt::pop` (Belt.h lines 209-242) between lock and unlock:
if the count is zero the slot-consistency re-check fires and a zero package
is returned with the state unchanged; otherwise the package at `head` is
read, its slot is memset to zero, `head` advances mod K and the counters are
decremented. -/
def Belt.pop (s : BeltState) : BeltState × Package :=
  if s.current_items_count = 0 then
    (s, zeroPackage)
  else
    let current_head := s.head
    let pkg := s.belt current_head
    ({ s with
        belt := setSlot s.belt current_head zeroPackage
        head := (current_head + 1) % MAX_BELT_CAPACITY_K
        current_items_count := s.current_items_count - 1
        current_belt_weight := s.current_belt_weight - pkg.weight },
      pkg)

/-- Belt-mutex-gated id assignment of `Express::deliverVipPackage`
(Express.h lines 84-87): increment `total_packages_created` and take the new
value as the VIP package id; the belt buffer itself is untouched. -/
def vipAssignId (s : BeltState) : BeltState × Nat :=
  ({ s with total_packages_created := s.total_packages_created + 1 },
    s.total_packages_created + 1)

/-- Structural invariant of the circular buffer: `head` is a valid index, the
count never exceeds the capacity, and `tail` is `head + count` mod K. It
holds for the zeroed initial state and is preserved by every operation. -/
def BeltInv (s : BeltState) : Prop :=
  s.head < MAX_BELT_CAPACITY_K ∧
  s.current_items_count ≤ MAX_BELT_CAPACITY_K ∧
  s.tail = (s.head + s.current_items_count) % MAX_BELT_CAPACITY_K

/-- The live region of the belt read off from `head`, in FIFO order. -/
def liveList (s : BeltState) : List Package :=
  (List.range s.current_items_count).map
    (fun i => s.belt ((s.head + i) % MAX_BELT_CAPACITY_K))

/-- One serialized belt-mutex operation of a trace: a `Belt::push` by some
worker, a `Belt::pop` by the dispatcher, or the VIP id assignment of the
express process. -/
inductive BeltOp where
  | pushOp (p : Package)
  | popOp
  | vipOp

/-- Instrumented trace state: the shared belt state plus the history of
stored packages (as written into the buffer, id already assigned), of
packages delivered by `pop`, and of all assigned ids in order. -/
structure TraceState where
  state : BeltState
  pushedOk : List Package
  popped : List Package
  ids : List Nat

/-- Run one operation and record its observable events. A rejected push
stores nothing and assigns no id; a pop that hits the empty re-check
delivers no package. -/
def stepOp (t : TraceState) (op : BeltOp) : TraceState :=
  match op with
  | .pushOp p =>
      match Belt.push t.state p with
      | .pushed s' =>
          { state := s',
            pushedOk := t.pushedOk ++
              [{ p with id := t.state.total_packages_created + 1 }],
            popped := t.popped,
            ids := t.ids ++ [t.state.total_packages_created + 1] }
      | .rejectedFull s' => { t with state := s' }
  | .popOp =>
      if t.state.current_items_count = 0 then
        { t with state := (Belt.pop t.state).1 }
      else
        { state := (Belt.pop t.state).1,
          pushedOk := t.pushedOk,
          popped := t.popped ++ [(Belt.pop t.state).2],
          ids := t.ids }
  | .vipOp =>
      { t with state := (vipAssignId t.state).1,
               ids := t.ids ++ [(vipAssignId t.state).2] }

/-- The empty initial trace over the zeroed shared segment. -/
def initTrace : TraceState :=
  { state := initBeltState, pushedOk := [], popped := [], ids := [] }

/-- Run a whole sequence of serialized belt operations from the initial
zeroed state. -/
def runOps (ops : List BeltOp) : TraceState :=
  ops.foldl stepOp initTrace

/-- State of the loading dock (`struct TruckState`). The variant of Shared.h
paired with Dispatcher.h and Truck.h carries volume fields as well; the
variants that track only weight simply never touch the volume fields. -/
structure TruckState where
  is_present : Bool
  id : Int
  current_load : Int
  max_load : Int
  current_weight : ℚ
  max_weight : ℚ
  current_volume : ℚ
  max_volume : ℚ
deriving DecidableEq

/-- Result of one dispatcher retry-load iteration under the dock mutex:
the updated dock state, the `loaded` flag of the retry loop, and the list of
`(recipient pid, signal)` messages sent during the iteration. -/
structure LoadStepResult where
  truck : TruckState
  loaded : Bool
  signals : List (Int × Nat)
deriving DecidableEq

/-- One iteration of the retry-load of `Dispatcher::processNextPackage`
(Dispatcher.h lines 26-87) under the dock mutex. If a truck is present the
package is loaded when it fits by weight and by volume (the load count is
not consulted); on a load all three `current_*` fields grow and a DEPARTURE
addressed to `truck.id` is sent exactly when the updated weight or volume
reaches 99 percent of its limit. A package that does not fit leaves the
truck untouched and forces a DEPARTURE addressed to `truck.id`. -/
def processNextPackageStep (truck : TruckState) (pkg : Package) :
    LoadStepResult :=
  if truck.is_present = true then
    if truck.current_weight + pkg.weight ≤ truck.max_weight ∧
        truck.current_volume + pkg.volume ≤ truck.max_volume then
      let t2 : TruckState :=
        { truck with
          current_weight := truck.current_weight + pkg.weight
          current_volume := truck.current_volume + pkg.volume
          current_load := truck.current_load + 1 }
      if t2.max_weight * (99 / 100 : ℚ) ≤ t2.current_weight ∨
          t2.max_volume * (99 / 100 : ℚ) ≤ t2.current_volume then
        ⟨t2, true, [(truck.id, SIGNAL_DEPARTURE)]⟩
      else
        ⟨t2, true, []⟩
    else
      ⟨truck, false, [(truck.id, SIGNAL_DEPARTURE)]⟩
  else
    ⟨truck, false, []⟩

/-- Result of one iteration of the `Dispatcher::run` variant embedded in
Shared.h; its `send_signal_fn` takes no recipient, so signals are bare. -/
structure RunStepResult where
  truck : TruckState
  loaded : Bool
  signals : List Nat
deriving DecidableEq

/-- One iteration of the retry loop of the `Dispatcher::run` variant
(Shared.h lines 287-318) under the dock mutex. The load guard is
`current_load < max_load` and weight fit; on a load a DEPARTURE is sent when
the count or weight limit is reached; on a misfit a DEPARTURE is sent only
when `current_load > 0`. -/
def dispatcherRunLoadStep (truck : TruckState) (pkg : Package) :
    RunStepResult :=
  if truck.is_present = true then
    if truck.current_load < truck.max_load ∧
        truck.current_weight + pkg.weight ≤ truck.max_weight then
      let t2 : TruckState :=
        { truck with
          current_load := truck.current_load + 1
          current_weight := truck.current_weight + pkg.weight }
      if t2.max_load ≤ t2.current_load ∨ t2.max_weight ≤ t2.current_weight then
        ⟨t2, true, [SIGNAL_DEPARTURE]⟩
      else
        ⟨t2, true, []⟩
    else
      if 0 < truck.current_load then
        ⟨truck, false, [SIGNAL_DEPARTURE]⟩
      else
        ⟨truck, false, []⟩
  else
    ⟨truck, false, []⟩

/-- The dock slice of shared state touched by the truck state machine. -/
structure DockShared where
  dock_truck : TruckState
  trucks_completed : Nat
deriving DecidableEq

/-- Departure transition of `Truck::run` (Truck.h lines 74-88) under the
dock mutex: if the dock occupant id equals the own pid, bump
`trucks_completed` and clear `is_present`; otherwise log a critical identity
violation and change nothing. -/
def Truck.departStep (s : DockShared) (my_pid : Int) : DockShared :=
  if s.dock_truck.id = my_pid then
    { dock_truck := { s.dock_truck with is_present := false },
      trucks_completed := s.trucks_completed + 1 }
  else
    s

/-- Shutdown epilogue of `Truck::run` (Truck.h lines 96-100): clear
`is_present` only when this truck is the present occupant. -/
def Truck.shutdownStep (s : DockShared) (my_pid : Int) : DockShared :=
  if s.dock_truck.is_present = true ∧ s.dock_truck.id = my_pid then
    { s with dock_truck := { s.dock_truck with is_present := false } }
  else
    s

/-- One row of the session registry (`struct UserSession` in Shared.h). -/
structure UserSession where
  active : Bool
  username : String
  session_pid : Int
  role : Nat
  orgId : Int
  max_processes : Int
  current_processes : Int
deriving DecidableEq

/-- The row written by `SessionManager::login` into a free slot
(SessionManager.h lines 52-57): memset to zero, then `active`, `username`,
`max_processes`, `current_processes = 0` and `session_pid` are set. -/
def loginFreshRow (name : String) (pid : Int) (maxProcs : Int) : UserSession :=
  { active := true, username := name, session_pid := pid, role := 0,
    orgId := 0, max_processes := maxProcs, current_processes := 0 }

/-- Body of `SessionManager::trySpawnProcess` (SessionManager.h lines
83-103) on the session row under the mutex: increment and report success
exactly when `current_processes < max_processes`. -/
def trySpawnProcess (u : UserSession) : UserSession × Bool :=
  if u.current_processes < u.max_processes then
    ({ u with current_processes := u.current_processes + 1 }, true)
  else
    (u, false)

/-- Body of `SessionManager::reportProcessFinished` (SessionManager.h lines
105-114): decrement `current_processes` only when it is positive. -/
def reportProcessFinished (u : UserSession) : UserSession :=
  if 0 < u.current_processes then
    { u with current_processes := u.current_processes - 1 }
  else
    u

/-- Result of one `semop` attempt, abstracted by its errno class. -/
inductive SemRes where
  | ok
  | eintr
  | eidrm
  | einval
  | otherErr
deriving DecidableEq

/-- Control-flow outcome of `Manager::semOperation`. -/
inductive SemOutcome where
  | acquired
  | returnedNoAcquire
  | exitedProcess
deriving DecidableEq

/-- `Manager::semOperation` of Manager.h (lines 198-216): a single `semop`
attempt. On success the operation was performed. On EIDRM or EINVAL with the
shutdown flag cleared the function returns without acquiring; with the flag
still set it exits. On EINTR neither branch fires and the function returns
without acquiring regardless of the flag; any other errno exits. -/
def semOperationOnce (running : Bool) (r : SemRes) : SemOutcome :=
  match r with
  | .ok => .acquired
  | .eidrm => if running then .exitedProcess else .returnedNoAcquire
  | .einval => if running then .exitedProcess else .returnedNoAcquire
  | .eintr => .returnedNoAcquire
  | .otherErr => .exitedProcess

/-- Control-flow outcome of the looping `semOperation` of part_011;
`stillWaiting` stands for a loop that has consumed every provided attempt
result while retrying. -/
inductive SemLoopOutcome where
  | acquired
  | exitedProcess
  | stillWaiting
deriving DecidableEq

/-- `Manager::semOperation` of part_011 (lines 43-56): `semop` is retried in
a while loop as long as it fails with EINTR; success acquires, any other
errno exits the process. The shared `running` flag is never consulted. -/
def semOperationLoop : List SemRes → SemLoopOutcome
  | [] => .stillWaiting
  | SemRes.ok :: _ => .acquired
  | SemRes.eintr :: rest => semOperationLoop rest
  | SemRes.eidrm :: _ => .exitedProcess
  | SemRes.einval :: _ => .exitedProcess
  | SemRes.otherErr :: _ => .exitedProcess

/-- Result of `ExpressWorker::deliverExpressBatch`: the dock state and the
`(recipient pid, signal)` messages sent. -/
structure BatchResult where
  truck : TruckState
  signals : List (Int × Nat)
deriving DecidableEq

/-- The per-item loop of `ExpressWorker::deliverExpressBatch` (part_007
lines 48-82): each batch item is a `(weight, volume)` draw; an item that
fits by weight and volume is added to `current_weight` and `current_volume`
(the load count is never touched); the first overflow sends a DEPARTURE to
`truck.id` and breaks. -/
def deliverBatchLoop (truck : TruckState) :
    List (ℚ × ℚ) → BatchResult
  | [] => ⟨truck, []⟩
  | (w, v) :: rest =>
      if truck.current_weight + w ≤ truck.max_weight ∧
          truck.current_volume + v ≤ truck.max_volume then
        deliverBatchLoop
          { truck with
            current_weight := truck.current_weight + w
            current_volume := truck.current_volume + v } rest
      else
        ⟨truck, [(truck.id, SIGNAL_DEPARTURE)]⟩

/-- `ExpressWorker::deliverExpressBatch` (part_007 lines 23-85) under the
dock mutex, with the random batch supplied as an explicit item list: nothing
happens when no truck is present, otherwise the per-item loop runs. -/
def deliverExpressBatch (truck : TruckState) (items : List (ℚ × ℚ)) :
    BatchResult :=
  if truck.is_present = true then
    deliverBatchLoop truck items
  else
    ⟨truck, []⟩

/-- Trace invariant tying the circular buffer to its FIFO abstraction: the
structural buffer invariant holds, the packages stored so far are exactly the
delivered ones followed by the live region, every assigned id is bounded by
the running counter, and the assigned ids are strictly increasing. -/
def TraceInv (t : TraceState) : Prop :=
  BeltInv t.state ∧
  t.pushedOk = t.popped ++ liveList t.state ∧
  (∀ i ∈ t.ids, i ≤ t.state.total_packages_created) ∧
  t.ids.Pairwise (· < ·)

/-- Sample dock state: a docked truck whose load count already equals its
load capacity while weight and volume capacity remain. -/
def truckAtMaxLoad : TruckState :=
  { is_present := true, id := 7, current_load := 5, max_load := 5,
    current_weight := 0, max_weight := 100,
    current_volume := 0, max_volume := 100 }

/-- Sample package of 1 kg and 1 m3. -/
def pkgSmall : Package :=
  { zeroPackage with weight := 1, volume := 1 }

/-- Sample dock state: an empty docked truck with ample capacity. -/
def truckRoomy : TruckState :=
  { is_present := true, id := 3, current_load := 0, max_load := 100,
    current_weight := 0, max_weight := 100,
    current_volume := 0, max_volume := 10 }

/-- Sample package of 10.5 kg and 0.1 m3 (the single-package scenario). -/
def pkgMid : Package :=
  { zeroPackage with weight := 21 / 2, volume := 1 / 10 }

/-- Sample dock state: an empty docked truck whose weight capacity is only
0.1 kg. -/
def truckEmptyTiny : TruckState :=
  { is_present := true, id := 9, current_load := 0, max_load := 5,
    current_weight := 0, max_weight := 1 / 10,
    current_volume := 0, max_volume := 1 }

/-- Sample package of 5 kg, heavier than the whole capacity of
`truckEmptyTiny`. -/
def pkgHeavy : Package :=
  { zeroPackage with weight := 5 }

/-- Sample dock slice: truck 5 occupies the dock, three departures counted. -/
def sampleDock : DockShared :=
  { dock_truck :=
      { is_present := true, id := 5, current_load := 2, max_load := 8,
        current_weight := 20, max_weight := 100,
        current_volume := 1, max_volume := 3 },
    trucks_completed := 3 }

/-- Sample belt state whose item count has reached the capacity K. -/
def beltFull10 : BeltState :=
  { belt := fun _ => zeroPackage, head := 0, tail := 0,
    current_items_count := 10, current_belt_weight := 0,
    total_packages_created := 10 }

/-- Sample package of 2 kg. -/
def pkgA : Package :=
  { zeroPackage with weight := 2 }

/-- Sample package of 15 kg; ten of them exceed `MAX_BELT_WEIGHT_M`. -/
def heavyPkg : Package :=
  { zeroPackage with weight := 15 }

/-- Ten pushes of 15 kg packages: every slot admission succeeds although the
accumulated weight reaches 150 kg. -/
def heavyOps : List BeltOp :=
  List.replicate 10 (BeltOp.pushOp heavyPkg)

/-! ## Helper lemmas -/

theorem deliverBatchLoop_frame (items : List (ℚ × ℚ)) :
    ∀ t : TruckState,
      (deliverBatchLoop t items).truck.current_load = t.current_load ∧
      (deliverBatchLoop t items).truck.is_present = t.is_present ∧
      (deliverBatchLoop t items).truck.id = t.id ∧
      (deliverBatchLoop t items).truck.max_load = t.max_load ∧
      (deliverBatchLoop t items).truck.max_weight = t.max_weight ∧
      (deliverBatchLoop t items).truck.max_volume = t.max_volume := by
  induction items with
  | nil =>
      intro t
      simp [deliverBatchLoop]
  | cons hd rest ih =>
      intro t
      obtain ⟨w, v⟩ := hd
      by_cases h : t.current_weight + w ≤ t.max_weight ∧
          t.current_volume + v ≤ t.max_volume
      · simpa [deliverBatchLoop, h] using ih _
      · simp [deliverBatchLoop, h]

/-! ## C10 -/

/-- C10: `deliverExpressBatch` updates only the docked truck weight and
volume tallies; for every call and every batch, `current_load` (as well as
`is_present`, `id` and the three capacity limits) after the call equals its
value before the call. -/
theorem c10_expressBatch_preserves_load (truck : TruckState)
    (items : List (ℚ × ℚ)) :
    (deliverExpressBatch truck items).truck.current_load =
        truck.current_load ∧
    (deliverExpressBatch truck items).truck.is_present = truck.is_present ∧
    (deliverExpressBatch truck items).truck.id = truck.id ∧
    (deliverExpressBatch truck items).truck.max_load = truck.max_load ∧
    (deliverExpressBatch truck items).truck.max_weight = truck.max_weight ∧
    (deliverExpressBatch truck items).truck.max_volume = truck.max_volume := by
  by_cases h : truck.is_present = true
  · simpa [deliverExpressBatch, h] using deliverBatchLoop_frame items truck
  · simp [deliverExpressBatch, h]

/-! ## C4 -/

/-- C4: the departure transition under the dock mutex increments
`trucks_completed` by exactly one and clears `is_present` when the occupant
id equals the own pid; on a mismatch the shared dock slice is left entirely
unchanged; the shutdown path clears `is_present` only when this truck is the
present occupant and touches nothing else. -/
theorem c4_truck_departure_identity (s : DockShared) (pid : Int) :
    (s.dock_truck.id = pid →
      (Truck.departStep s pid).trucks_completed = s.trucks_completed + 1 ∧
      (Truck.departStep s pid).dock_truck.is_present = false) ∧
    (s.dock_truck.id ≠ pid → Truck.departStep s pid = s) ∧
    (¬ (s.dock_truck.is_present = true ∧ s.dock_truck.id = pid) →
      Truck.shutdownStep s pid = s) ∧
    (s.dock_truck.is_present = true → s.dock_truck.id = pid →
      (Truck.shutdownStep s pid).dock_truck.is_present = false ∧
      (Truck.shutdownStep s pid).trucks_completed = s.trucks_completed ∧
      (Truck.shutdownStep s pid).dock_truck.id = s.dock_truck.id) := by
  refine ⟨fun h => ?_, fun h => ?_, fun h => ?_, fun h1 h2 => ?_⟩
  · simp [Truck.departStep, h]
  · simp [Truck.departStep, h]
  · simp [Truck.shutdownStep, h]
  · simp [Truck.shutdownStep, h1, h2]

/-- Witness for C4 at `sampleDock`: truck 5 is the occupant, truck 9 is
not. -/
theorem c4_truck_departure_identity_witness :
    ((Truck.departStep sampleDock 5).trucks_completed =
        sampleDock.trucks_completed + 1 ∧
      (Truck.departStep sampleDock 5).dock_truck.is_present = false) ∧
    Truck.departStep sampleDock 9 = sampleDock ∧
    Truck.shutdownStep sampleDock 9 = sampleDock ∧
    (Truck.shutdownStep sampleDock 5).dock_truck.is_present = false :=
  ⟨(c4_truck_departure_identity sampleDock 5).1 (by decide),
    (c4_truck_departure_identity sampleDock 9).2.1 (by decide),
    (c4_truck_departure_identity sampleDock 9).2.2.1 (by decide),
    ((c4_truck_departure_identity sampleDock 5).2.2.2 (by decide)
      (by decide)).1⟩

/-! ## C7 -/

/-- C7 counterexample: in the Manager.h `semOperation`, a wait interrupted
by a signal while the shutdown flag is still on `running = true` returns
without acquiring instead of being retried, refuting the claim that a wait
returns without acquiring only once the shutdown flag has been set. -/
theorem c7_counterexample :
    semOperationOnce true SemRes.eintr = SemOutcome.returnedNoAcquire ∧
    semOperationOnce true SemRes.eintr ≠ SemOutcome.acquired := by
  decide

/-- C7 amended: in Manager.h a wait hit by EINTR returns without acquiring
regardless of the shutdown flag, a success acquires, and EIDRM or EINVAL
returns without acquiring exactly when the shutdown flag has been cleared
(otherwise the process exits); in the part_011 variant an interrupted wait
is retried unconditionally, so any run of interrupts followed by a success
acquires, whatever the shutdown flag says. -/
theorem c7_amended_interrupt_behaviour :
    (∀ running : Bool,
      semOperationOnce running SemRes.eintr = SemOutcome.returnedNoAcquire) ∧
    (∀ running : Bool,
      semOperationOnce running SemRes.ok = SemOutcome.acquired) ∧
    (∀ running : Bool,
      (semOperationOnce running SemRes.eidrm = SemOutcome.returnedNoAcquire ↔
        running = false)) ∧
    (∀ running : Bool,
      (semOperationOnce running SemRes.einval = SemOutcome.returnedNoAcquire ↔
        running = false)) ∧
    (∀ rest : List SemRes,
      semOperationLoop (SemRes.eintr :: rest) = semOperationLoop rest) ∧
    (∀ (n : Nat) (rest : List SemRes),
      semOperationLoop (List.replicate n SemRes.eintr ++ SemRes.ok :: rest) =
        SemLoopOutcome.acquired) := by
  refine ⟨?_, ?_, ?_, ?_, ?_, ?_⟩
  · intro running; cases running <;> rfl
  · intro running; cases running <;> rfl
  · intro running; cases running <;> simp [semOperationOnce]
  · intro running; cases running <;> simp [semOperationOnce]
  · intro rest; rfl
  · intro n
    induction n with
    | zero => intro rest; rfl
    | succ m ih =>
        intro rest
        simpa [List.replicate_succ, semOperationLoop] using ih rest

/-! ## C8 -/

/-- C8: `trySpawnProcess` succeeds and increments exactly when
`current_processes < max_processes` and otherwise leaves the row unchanged;
`reportProcessFinished` decrements with saturation at zero; both preserve
`0 ≤ current_processes ≤ max_processes`; and a fresh quota-2 session yields
`true, true, false` on three spawns and `true` again after one finish
report. -/
theorem c8_session_quota (u : UserSession)
    (h0 : 0 ≤ u.current_processes)
    (hm : u.current_processes ≤ u.max_processes) :
    ((trySpawnProcess u).2 = true ↔
      u.current_processes < u.max_processes) ∧
    ((trySpawnProcess u).2 = true →
      (trySpawnProcess u).1.current_processes = u.current_processes + 1) ∧
    ((trySpawnProcess u).2 = false → (trySpawnProcess u).1 = u) ∧
    (0 ≤ (trySpawnProcess u).1.current_processes ∧
      (trySpawnProcess u).1.current_processes ≤ u.max_processes) ∧
    (trySpawnProcess u).1.max_processes = u.max_processes ∧
    (0 ≤ (reportProcessFinished u).current_processes ∧
      (reportProcessFinished u).current_processes ≤ u.max_processes) ∧
    (u.current_processes = 0 → reportProcessFinished u = u) ∧
    (0 < u.current_processes →
      (reportProcessFinished u).current_processes =
        u.current_processes - 1) ∧
    ((trySpawnProcess (loginFreshRow "Q" 42 2)).2 = true ∧
      (trySpawnProcess (trySpawnProcess (loginFreshRow "Q" 42 2)).1).2 =
        true ∧
      (trySpawnProcess
        (trySpawnProcess (trySpawnProcess (loginFreshRow "Q" 42 2)).1).1).2 =
        false ∧
      (trySpawnProcess (reportProcessFinished
        (trySpawnProcess
          (trySpawnProcess (trySpawnProcess (loginFreshRow "Q" 42 2)).1).1).1)).2 =
        true) := by
  by_cases h : u.current_processes < u.max_processes
  · refine ⟨by simp [trySpawnProcess, h], ?_, ?_, ?_, ?_, ?_, ?_, ?_, by decide⟩
    · intro _; simp [trySpawnProcess, h]
    · intro hfalse; simp [trySpawnProcess, h] at hfalse
    · simp [trySpawnProcess, h]; omega
    · simp [trySpawnProcess, h]
    · constructor <;> (simp only [reportProcessFinished]; split <;> first | omega | (simp; omega))
    · intro hz; simp [reportProcessFinished, hz]
    · intro hpos; simp [reportProcessFinished, hpos]
  · refine ⟨by simp [trySpawnProcess, h], ?_, ?_, ?_, ?_, ?_, ?_, ?_, by decide⟩
    · intro htrue; simp [trySpawnProcess, h] at htrue
    · intro _; simp [trySpawnProcess, h]
    · simp [trySpawnProcess, h]; omega
    · simp [trySpawnProcess, h]
    · constructor <;> (simp only [reportProcessFinished]; split <;> first | omega | (simp; omega))
    · intro hz; simp [reportProcessFinished, hz]
    · intro hpos; simp [reportProcessFinished, hpos]

/-- Witness for C8 at a fresh quota-3 session row. -/
theorem c8_session_quota_witness :
    (0 ≤ (loginFreshRow "W" 7 3).current_processes ∧
      (loginFreshRow "W" 7 3).current_processes ≤
        (loginFreshRow "W" 7 3).max_processes) ∧
    ((trySpawnProcess (loginFreshRow "W" 7 3)).2 = true ↔
      (loginFreshRow "W" 7 3).current_processes <
        (loginFreshRow "W" 7 3).max_processes) :=
  ⟨⟨by decide, by decide⟩,
    (c8_session_quota (loginFreshRow "W" 7 3) (by decide) (by decide)).1⟩

/-! ## C1 -/

/-- C1 counterexample: with a docked truck whose load count already equals
`max_load` (so `fits_q` fails) but whose weight and volume capacity remain,
the retry-load of `Dispatcher::processNextPackage` still loads the popped
package, refuting the claim that a load happens only if
`current_load < max_load` holds along with the weight and volume fits. -/
theorem c1_counterexample :
    (processNextPackageStep truckAtMaxLoad pkgSmall).loaded = true ∧
    ¬ (truckAtMaxLoad.current_load < truckAtMaxLoad.max_load) := by
  norm_num [processNextPackageStep, truckAtMaxLoad, pkgSmall, zeroPackage]

/-- C1 amended: in the retry-load of `Dispatcher::processNextPackage`
(Dispatcher.h), with a truck present the popped package is loaded if and
only if it fits by weight and by volume — the load count is not part of the
guard; on a successful load `current_load`, `current_weight` and
`current_volume` each grow by the package contribution, and a DEPARTURE
addressed to the docked truck id is sent exactly when, after the update, the
weight or the volume has reached 99 percent of its limit — reaching
`max_load` does not by itself trigger a departure; a package that does not
fit leaves the truck unchanged and forces a DEPARTURE to the truck id. -/
theorem c1_amended_load_rule (t : TruckState) (p : Package)
    (h : t.is_present = true) :
    ((processNextPackageStep t p).loaded = true ↔
      (t.current_weight + p.weight ≤ t.max_weight ∧
        t.current_volume + p.volume ≤ t.max_volume)) ∧
    (t.current_weight + p.weight ≤ t.max_weight →
      t.current_volume + p.volume ≤ t.max_volume →
      (processNextPackageStep t p).truck.current_load =
          t.current_load + 1 ∧
      (processNextPackageStep t p).truck.current_weight =
          t.current_weight + p.weight ∧
      (processNextPackageStep t p).truck.current_volume =
          t.current_volume + p.volume ∧
      ((processNextPackageStep t p).signals =
          [(t.id, SIGNAL_DEPARTURE)] ↔
        (t.max_weight * (99 / 100 : ℚ) ≤ t.current_weight + p.weight ∨
          t.max_volume * (99 / 100 : ℚ) ≤ t.current_volume + p.volume))) ∧
    (¬ (t.current_weight + p.weight ≤ t.max_weight ∧
        t.current_volume + p.volume ≤ t.max_volume) →
      (processNextPackageStep t p).truck = t ∧
      (processNextPackageStep t p).loaded = false ∧
      (processNextPackageStep t p).signals = [(t.id, SIGNAL_DEPARTURE)]) := by
  by_cases hfit : t.current_weight + p.weight ≤ t.max_weight ∧
      t.current_volume + p.volume ≤ t.max_volume
  · by_cases hdep : t.max_weight * (99 / 100 : ℚ) ≤
        t.current_weight + p.weight ∨
        t.max_volume * (99 / 100 : ℚ) ≤ t.current_volume + p.volume
    · refine ⟨by simp [processNextPackageStep, h, hfit, hdep], ?_, ?_⟩
      · intro _ _
        simp [processNextPackageStep, h, hfit, hdep]
      · intro hc; exact absurd hfit hc
    · refine ⟨by simp [processNextPackageStep, h, hfit, hdep], ?_, ?_⟩
      · intro _ _
        simp [processNextPackageStep, h, hfit, hdep]
      · intro hc; exact absurd hfit hc
  · refine ⟨by simp [processNextPackageStep, h, hfit], ?_, ?_⟩
    · intro hw hv; exact absurd ⟨hw, hv⟩ hfit
    · intro _
      simp [processNextPackageStep, h, hfit]

/-- Witness for C1 amended at `truckRoomy` and `pkgMid` (the 10.5 kg
package of the single-package scenario). -/
theorem c1_amended_load_rule_witness :
    truckRoomy.is_present = true ∧
    (((processNextPackageStep truckRoomy pkgMid).loaded = true ↔
      (truckRoomy.current_weight + pkgMid.weight ≤ truckRoomy.max_weight ∧
        truckRoomy.current_volume + pkgMid.volume ≤
          truckRoomy.max_volume)) ∧
    (truckRoomy.current_weight + pkgMid.weight ≤ truckRoomy.max_weight →
      truckRoomy.current_volume + pkgMid.volume ≤ truckRoomy.max_volume →
      (processNextPackageStep truckRoomy pkgMid).truck.current_load =
          truckRoomy.current_load + 1 ∧
      (processNextPackageStep truckRoomy pkgMid).truck.current_weight =
          truckRoomy.current_weight + pkgMid.weight ∧
      (processNextPackageStep truckRoomy pkgMid).truck.current_volume =
          truckRoomy.current_volume + pkgMid.volume ∧
      ((processNextPackageStep truckRoomy pkgMid).signals =
          [(truckRoomy.id, SIGNAL_DEPARTURE)] ↔
        (truckRoomy.max_weight * (99 / 100 : ℚ) ≤
            truckRoomy.current_weight + pkgMid.weight ∨
          truckRoomy.max_volume * (99 / 100 : ℚ) ≤
            truckRoomy.current_volume + pkgMid.volume))) ∧
    (¬ (truckRoomy.current_weight + pkgMid.weight ≤ truckRoomy.max_weight ∧
        truckRoomy.current_volume + pkgMid.volume ≤
          truckRoomy.max_volume) →
      (processNextPackageStep truckRoomy pkgMid).truck = truckRoomy ∧
      (processNextPackageStep truckRoomy pkgMid).loaded = false ∧
      (processNextPackageStep truckRoomy pkgMid).signals =
        [(truckRoomy.id, SIGNAL_DEPARTURE)])) :=
  ⟨rfl, c1_amended_load_rule truckRoomy pkgMid rfl⟩

/-! ## C3 -/

/-- C3 counterexample: in the `Dispatcher::run` variant of Shared.h, a
package whose weight alone exceeds the docked truck weight capacity elicits
no DEPARTURE signal when the truck is still empty (`current_load = 0`),
refuting the claim that every misfit triggers a departure signal. -/
theorem c3_counterexample :
    truckEmptyTiny.max_weight < pkgHeavy.weight ∧
    (dispatcherRunLoadStep truckEmptyTiny pkgHeavy).signals = [] ∧
    (dispatcherRunLoadStep truckEmptyTiny pkgHeavy).truck =
      truckEmptyTiny ∧
    (dispatcherRunLoadStep truckEmptyTiny pkgHeavy).loaded = false := by
  norm_num [dispatcherRunLoadStep, truckEmptyTiny, pkgHeavy, zeroPackage]

/-- C3 amended: when the popped package does not fit the present truck, no
field of `TruckState` is modified and the package is retained for retry
(`loaded` stays false) in both dispatcher variants; the retry-load of
`Dispatcher::processNextPackage` (Dispatcher.h) always sends a DEPARTURE
addressed to the observed `truck.id`, while the `Dispatcher::run` variant
(Shared.h) sends an unaddressed DEPARTURE only when `current_load > 0`, so a
package too heavy for an empty truck elicits no signal there. -/
theorem c3_amended_misfit_departure (t : TruckState) (p : Package)
    (h : t.is_present = true)
    (hnofit : ¬ (t.current_weight + p.weight ≤ t.max_weight ∧
        t.current_volume + p.volume ≤ t.max_volume))
    (hnofit2 : ¬ (t.current_load < t.max_load ∧
        t.current_weight + p.weight ≤ t.max_weight)) :
    ((processNextPackageStep t p).truck = t ∧
      (processNextPackageStep t p).loaded = false ∧
      (processNextPackageStep t p).signals =
        [(t.id, SIGNAL_DEPARTURE)]) ∧
    ((dispatcherRunLoadStep t p).truck = t ∧
      (dispatcherRunLoadStep t p).loaded = false ∧
      (dispatcherRunLoadStep t p).signals =
        (if 0 < t.current_load then [SIGNAL_DEPARTURE] else [])) := by
  constructor
  · simp [processNextPackageStep, h, hnofit]
  · by_cases hpos : 0 < t.current_load
    · simp [dispatcherRunLoadStep, h, hnofit2, hpos]
    · simp [dispatcherRunLoadStep, h, hnofit2, hpos]

/-- Witness for C3 amended at `truckEmptyTiny` and the 5 kg `pkgHeavy`. -/
theorem c3_amended_misfit_departure_witness :
    (truckEmptyTiny.is_present = true ∧
      ¬ (truckEmptyTiny.current_weight + pkgHeavy.weight ≤
            truckEmptyTiny.max_weight ∧
          truckEmptyTiny.current_volume + pkgHeavy.volume ≤
            truckEmptyTiny.max_volume) ∧
      ¬ (truckEmptyTiny.current_load < truckEmptyTiny.max_load ∧
          truckEmptyTiny.current_weight + pkgHeavy.weight ≤
            truckEmptyTiny.max_weight)) ∧
    (((processNextPackageStep truckEmptyTiny pkgHeavy).truck =
          truckEmptyTiny ∧
      (processNextPackageStep truckEmptyTiny pkgHeavy).loaded = false ∧
      (processNextPackageStep truckEmptyTiny pkgHeavy).signals =
        [(truckEmptyTiny.id, SIGNAL_DEPARTURE)]) ∧
    ((dispatcherRunLoadStep truckEmptyTiny pkgHeavy).truck =
          truckEmptyTiny ∧
      (dispatcherRunLoadStep truckEmptyTiny pkgHeavy).loaded = false ∧
      (dispatcherRunLoadStep truckEmptyTiny pkgHeavy).signals =
        (if 0 < truckEmptyTiny.current_load then [SIGNAL_DEPARTURE]
          else []))) :=
  ⟨⟨rfl, by norm_num [truckEmptyTiny, pkgHeavy, zeroPackage],
      by norm_num [truckEmptyTiny, pkgHeavy, zeroPackage]⟩,
    c3_amended_misfit_departure truckEmptyTiny pkgHeavy rfl
      (by norm_num [truckEmptyTiny, pkgHeavy, zeroPackage])
      (by norm_num [truckEmptyTiny, pkgHeavy, zeroPackage])⟩

/-! ## C6 -/

/-- C6 counterexample: a push that observes a full belt after acquiring the
mutex returns normally with the belt unchanged — the package is dropped (no
id assigned, nothing stored) and the producer process continues — refuting
the claim that the condition is treated as fatal rather than a silent
drop. -/
theorem c6_counterexample :
    Belt.push beltFull10 pkgA = PushResult.rejectedFull beltFull10 ∧
    (Belt.push beltFull10 pkgA).isPushed = false ∧
    (Belt.push beltFull10 pkgA).state.total_packages_created =
      beltFull10.total_packages_created := by
  refine ⟨rfl, rfl, rfl⟩

/-- C6 amended: if `Belt::push` observes
`current_items_count ≥ MAX_BELT_CAPACITY_K` after acquiring the mutex, it
logs an error, releases the mutex, re-posts the empty-slot semaphore and
returns with the belt state completely unchanged: the package is silently
dropped (no id assigned, nothing stored) and the worker continues; the
anomaly is not fatal and the push is not retried. -/
theorem c6_amended_full_push_drops (s : BeltState) (p : Package)
    (h : MAX_BELT_CAPACITY_K ≤ s.current_items_count) :
    Belt.push s p = PushResult.rejectedFull s := by
  simp [Belt.push, h]

/-- Witness for C6 amended at the full sample belt. -/
theorem c6_amended_full_push_drops_witness :
    MAX_BELT_CAPACITY_K ≤ beltFull10.current_items_count ∧
    Belt.push beltFull10 pkgA = PushResult.rejectedFull beltFull10 :=
  ⟨by decide, c6_amended_full_push_drops beltFull10 pkgA (by decide)⟩

/-! ## Circular buffer abstraction lemmas -/

theorem push_eq (s : BeltState) (p : Package)
    (hlt : s.current_items_count < MAX_BELT_CAPACITY_K) :
    Belt.push s p = PushResult.pushed
      { s with
        total_packages_created := s.total_packages_created + 1
        belt := setSlot s.belt s.tail
          { p with id := s.total_packages_created + 1 }
        tail := (s.tail + 1) % MAX_BELT_CAPACITY_K
        current_items_count := s.current_items_count + 1
        current_belt_weight := s.current_belt_weight + p.weight } := by
  have h' : ¬ MAX_BELT_CAPACITY_K ≤ s.current_items_count := by omega
  simp [Belt.push, h']

theorem pop_eq (s : BeltState) (hne : s.current_items_count ≠ 0) :
    Belt.pop s =
      ({ s with
          belt := setSlot s.belt s.head zeroPackage
          head := (s.head + 1) % MAX_BELT_CAPACITY_K
          current_items_count := s.current_items_count - 1
          current_belt_weight :=
            s.current_belt_weight - (s.belt s.head).weight },
        s.belt s.head) := by
  simp [Belt.pop, hne]

theorem liveList_after_push (s : BeltState) (q : Package)
    (hinv : BeltInv s)
    (hlt : s.current_items_count < MAX_BELT_CAPACITY_K) :
    (List.range (s.current_items_count + 1)).map
        (fun i => setSlot s.belt s.tail q
          ((s.head + i) % MAX_BELT_CAPACITY_K)) =
      liveList s ++ [q] := by
  obtain ⟨hh, hc, ht⟩ := hinv
  have hK : MAX_BELT_CAPACITY_K = 10 := rfl
  rw [hK] at hh hc ht hlt ⊢
  rw [show s.current_items_count + 1 =
      Nat.succ s.current_items_count from rfl,
    List.range_succ, List.map_append]
  have h1 : (List.range s.current_items_count).map
      (fun i => setSlot s.belt s.tail q ((s.head + i) % 10)) =
      (List.range s.current_items_count).map
        (fun i => s.belt ((s.head + i) % 10)) := by
    apply List.map_congr_left
    intro i hi
    rw [List.mem_range] at hi
    unfold setSlot
    rw [if_neg]
    rw [ht]
    omega
  have h2 : setSlot s.belt s.tail q
      ((s.head + s.current_items_count) % 10) = q := by
    unfold setSlot
    rw [ht, if_pos rfl]
  simp only [List.map_cons, List.map_nil, h1, h2]
  rw [liveList, hK]

theorem liveList_after_pop (s : BeltState)
    (hinv : BeltInv s) (hne : s.current_items_count ≠ 0) :
    liveList s = s.belt s.head ::
      liveList { s with
          belt := setSlot s.belt s.head zeroPackage
          head := (s.head + 1) % MAX_BELT_CAPACITY_K
          current_items_count := s.current_items_count - 1
          current_belt_weight :=
            s.current_belt_weight - (s.belt s.head).weight } := by
  obtain ⟨hh, hc, ht⟩ := hinv
  have hK : MAX_BELT_CAPACITY_K = 10 := rfl
  rw [hK] at hh hc ht
  have hn : s.current_items_count = (s.current_items_count - 1) + 1 := by
    omega
  unfold liveList
  rw [hK]
  simp only []
  rw [hn, List.range_succ_eq_map, List.map_cons, List.map_map]
  have h0 : s.belt ((s.head + 0) % 10) = s.belt s.head := by
    congr 1
    omega
  rw [h0]
  congr 1
  apply List.map_congr_left
  intro i hi
  rw [List.mem_range] at hi
  show s.belt ((s.head + Nat.succ i) % 10) =
    setSlot s.belt s.head zeroPackage (((s.head + 1) % 10 + i) % 10)
  unfold setSlot
  rw [if_neg]
  · congr 1
    omega
  · omega

theorem beltInv_after_push (s : BeltState) (q : Package)
    (hinv : BeltInv s)
    (hlt : s.current_items_count < MAX_BELT_CAPACITY_K) :
    BeltInv
      { s with
        total_packages_created := s.total_packages_created + 1
        belt := setSlot s.belt s.tail q
        tail := (s.tail + 1) % MAX_BELT_CAPACITY_K
        current_items_count := s.current_items_count + 1
        current_belt_weight := s.current_belt_weight + q.weight } := by
  obtain ⟨hh, hc, ht⟩ := hinv
  have hK : MAX_BELT_CAPACITY_K = 10 := rfl
  rw [hK] at hh hc ht hlt
  refine ⟨?_, ?_, ?_⟩
  · show s.head < MAX_BELT_CAPACITY_K
    rw [hK]; omega
  · show s.current_items_count + 1 ≤ MAX_BELT_CAPACITY_K
    rw [hK]; omega
  · show (s.tail + 1) % MAX_BELT_CAPACITY_K =
      (s.head + (s.current_items_count + 1)) % MAX_BELT_CAPACITY_K
    rw [hK]; omega

theorem beltInv_after_pop (s : BeltState)
    (hinv : BeltInv s) (hne : s.current_items_count ≠ 0) :
    BeltInv
      { s with
        belt := setSlot s.belt s.head zeroPackage
        head := (s.head + 1) % MAX_BELT_CAPACITY_K
        current_items_count := s.current_items_count - 1
        current_belt_weight :=
          s.current_belt_weight - (s.belt s.head).weight } := by
  obtain ⟨hh, hc, ht⟩ := hinv
  have hK : MAX_BELT_CAPACITY_K = 10 := rfl
  rw [hK] at hh hc ht
  refine ⟨?_, ?_, ?_⟩
  · show (s.head + 1) % MAX_BELT_CAPACITY_K < MAX_BELT_CAPACITY_K
    rw [hK]; omega
  · show s.current_items_count - 1 ≤ MAX_BELT_CAPACITY_K
    rw [hK]; omega
  · show s.tail =
      ((s.head + 1) % MAX_BELT_CAPACITY_K + (s.current_items_count - 1)) %
        MAX_BELT_CAPACITY_K
    rw [hK]; omega

theorem beltInv_push_state (s : BeltState) (p : Package)
    (hinv : BeltInv s)
    (hlt : s.current_items_count < MAX_BELT_CAPACITY_K) :
    BeltInv (Belt.push s p).state := by
  rw [push_eq s p hlt]
  exact beltInv_after_push s _ hinv hlt

theorem liveList_push_state (s : BeltState) (p : Package)
    (hinv : BeltInv s)
    (hlt : s.current_items_count < MAX_BELT_CAPACITY_K) :
    liveList (Belt.push s p).state =
      liveList s ++ [{ p with id := s.total_packages_created + 1 }] := by
  rw [push_eq s p hlt]
  exact liveList_after_push s _ hinv hlt

theorem beltInv_pop_state (s : BeltState)
    (hinv : BeltInv s) (hne : s.current_items_count ≠ 0) :
    BeltInv (Belt.pop s).1 := by
  rw [pop_eq s hne]
  exact beltInv_after_pop s hinv hne

theorem liveList_pop_state (s : BeltState)
    (hinv : BeltInv s) (hne : s.current_items_count ≠ 0) :
    liveList s = (Belt.pop s).2 :: liveList (Belt.pop s).1 := by
  rw [pop_eq s hne]
  exact liveList_after_pop s hinv hne

theorem total_push_state (s : BeltState) (p : Package)
    (hlt : s.current_items_count < MAX_BELT_CAPACITY_K) :
    (Belt.push s p).state.total_packages_created =
      s.total_packages_created + 1 := by
  rw [push_eq s p hlt]
  rfl

theorem total_pop_state (s : BeltState) (hne : s.current_items_count ≠ 0) :
    (Belt.pop s).1.total_packages_created = s.total_packages_created := by
  rw [pop_eq s hne]

theorem traceInv_stepOp (t : TraceState) (op : BeltOp)
    (h : TraceInv t) : TraceInv (stepOp t op) := by
  obtain ⟨hinv, hdecomp, hbound, hpair⟩ := h
  cases op with
  | pushOp p =>
      by_cases hfull : MAX_BELT_CAPACITY_K ≤ t.state.current_items_count
      · have hr : Belt.push t.state p =
            PushResult.rejectedFull t.state := by
          simp [Belt.push, hfull]
        simp only [stepOp, hr]
        exact ⟨hinv, hdecomp, hbound, hpair⟩
      · have hlt : t.state.current_items_count < MAX_BELT_CAPACITY_K := by
          omega
        rcases hres : Belt.push t.state p with s' | s'
        · rw [push_eq t.state p hlt] at hres
          simp at hres
        · have hstate : (Belt.push t.state p).state = s' := by
            rw [hres]
            rfl
          simp only [stepOp, hres]
          refine ⟨?_, ?_, ?_, ?_⟩
          · show BeltInv s'
            rw [← hstate]
            exact beltInv_push_state t.state p hinv hlt
          · show t.pushedOk ++
                [{ p with id := t.state.total_packages_created + 1 }] =
              t.popped ++ liveList s'
            rw [hdecomp, List.append_assoc, ← hstate]
            congr 1
            exact (liveList_push_state t.state p hinv hlt).symm
          · show ∀ i ∈ t.ids ++ [t.state.total_packages_created + 1],
              i ≤ s'.total_packages_created
            have htot : s'.total_packages_created =
                t.state.total_packages_created + 1 := by
              rw [← hstate]
              exact total_push_state t.state p hlt
            rw [htot]
            intro i hi
            rcases List.mem_append.mp hi with hi | hi
            · exact le_trans (hbound i hi) (Nat.le_succ _)
            · simp only [List.mem_singleton] at hi
              omega
          · show (t.ids ++
                [t.state.total_packages_created + 1]).Pairwise (· < ·)
            rw [List.pairwise_append]
            refine ⟨hpair, List.pairwise_singleton _ _, ?_⟩
            intro a ha b hb
            simp only [List.mem_singleton] at hb
            have := hbound a ha
            omega
  | popOp =>
      by_cases hz : t.state.current_items_count = 0
      · have hr : Belt.pop t.state = (t.state, zeroPackage) := by
          simp [Belt.pop, hz]
        simp only [stepOp, hz, if_pos, hr]
        exact ⟨hinv, hdecomp, hbound, hpair⟩
      · simp only [stepOp, if_neg hz]
        refine ⟨?_, ?_, ?_, ?_⟩
        · show BeltInv (Belt.pop t.state).1
          exact beltInv_pop_state t.state hinv hz
        · show t.pushedOk =
            (t.popped ++ [(Belt.pop t.state).2]) ++
              liveList (Belt.pop t.state).1
          rw [hdecomp, List.append_assoc, List.singleton_append]
          congr 1
          exact liveList_pop_state t.state hinv hz
        · show ∀ i ∈ t.ids, i ≤ (Belt.pop t.state).1.total_packages_created
          rw [total_pop_state t.state hz]
          exact hbound
        · exact hpair
  | vipOp =>
      refine ⟨hinv, hdecomp, ?_, ?_⟩
      · show ∀ i ∈ t.ids ++ [t.state.total_packages_created + 1],
          i ≤ t.state.total_packages_created + 1
        intro i hi
        rcases List.mem_append.mp hi with hi | hi
        · exact le_trans (hbound i hi) (Nat.le_succ _)
        · simp only [List.mem_singleton] at hi
          omega
      · show (t.ids ++ [t.state.total_packages_created + 1]).Pairwise (· < ·)
        rw [List.pairwise_append]
        refine ⟨hpair, List.pairwise_singleton _ _, ?_⟩
        intro a ha b hb
        simp only [List.mem_singleton] at hb
        have := hbound a ha
        omega

theorem traceInv_init : TraceInv initTrace := by
  refine ⟨⟨by decide, by decide, by decide⟩, ?_, ?_, ?_⟩
  · simp [initTrace, initBeltState, liveList]
  · intro i hi
    simp [initTrace] at hi
  · simp [initTrace]

theorem traceInv_runOps (ops : List BeltOp) : TraceInv (runOps ops) := by
  suffices h : ∀ t : TraceState, TraceInv t →
      TraceInv (ops.foldl stepOp t) by
    exact h initTrace traceInv_init
  induction ops with
  | nil => intro t ht; exact ht
  | cons hd tl ih =>
      intro t ht
      exact ih (stepOp t hd) (traceInv_stepOp t hd ht)

/-! ## C2 -/

/-- C2: over every sequence of serialized belt operations from the zeroed
initial state, the packages delivered by `pop` are exactly the first
`popped.length` packages stored by successful pushes, in push order — FIFO
delivery with no duplication; moreover a successful push stores the pushed
package unchanged in every field except the id assigned from the counter,
and a successful pop returns the package at `head` and leaves that slot
entirely zeroed. -/
theorem c2_belt_fifo_roundtrip (ops : List BeltOp) (s u : BeltState)
    (p : Package)
    (hne : s.current_items_count ≠ 0)
    (hlt : u.current_items_count < MAX_BELT_CAPACITY_K) :
    (runOps ops).popped =
      (runOps ops).pushedOk.take (runOps ops).popped.length ∧
    (Belt.push u p).state.belt u.tail =
      { p with id := u.total_packages_created + 1 } ∧
    (Belt.pop s).2 = s.belt s.head ∧
    (Belt.pop s).1.belt s.head = zeroPackage := by
  refine ⟨?_, ?_, ?_, ?_⟩
  · obtain ⟨_, hdecomp, _, _⟩ := traceInv_runOps ops
    rw [hdecomp]
    exact (List.take_left _ _).symm
  · rw [push_eq u p hlt]
    show setSlot u.belt u.tail _ u.tail = _
    simp [setSlot]
  · rw [pop_eq s hne]
  · rw [pop_eq s hne]
    show setSlot s.belt s.head zeroPackage s.head = zeroPackage
    simp [setSlot]

/-- Witness for C2 with the two-operation trace push-then-pop, the full
sample belt for the pop clauses and the initial belt for the push clause. -/
theorem c2_belt_fifo_roundtrip_witness :
    (beltFull10.current_items_count ≠ 0 ∧
      initBeltState.current_items_count < MAX_BELT_CAPACITY_K) ∧
    ((runOps [BeltOp.pushOp pkgA, BeltOp.popOp]).popped =
      (runOps [BeltOp.pushOp pkgA, BeltOp.popOp]).pushedOk.take
        (runOps [BeltOp.pushOp pkgA, BeltOp.popOp]).popped.length ∧
    (Belt.push initBeltState pkgA).state.belt initBeltState.tail =
      { pkgA with id := initBeltState.total_packages_created + 1 } ∧
    (Belt.pop beltFull10).2 = beltFull10.belt beltFull10.head ∧
    (Belt.pop beltFull10).1.belt beltFull10.head = zeroPackage) :=
  ⟨⟨by decide, by decide⟩,
    c2_belt_fifo_roundtrip [BeltOp.pushOp pkgA, BeltOp.popOp] beltFull10
      initBeltState pkgA (by decide) (by decide)⟩

/-! ## C5 -/

/-- C5: along every sequence of serialized belt operations from the zeroed
initial state, the ids assigned under the belt mutex — by `Belt::push` and
by the VIP id assignment of `Express::deliverVipPackage` — form a strictly
increasing sequence: every newly assigned id is strictly greater than every
previously assigned id. -/
theorem c5_ids_strictly_increasing (ops : List BeltOp) :
    (runOps ops).ids.Pairwise (· < ·) :=
  (traceInv_runOps ops).2.2.2

/-! ## C9 -/

/-- C9: admission of `Belt::push` never depends on the accumulated belt
weight: the push outcome is determined by the slot count alone, it is
invariant under arbitrary changes of `current_belt_weight`, and along the
ten-push trace of 15 kg packages every push succeeds while the accumulated
weight reaches 150 kg, exceeding `MAX_BELT_WEIGHT_M = 100`, which is never
consulted as an admission gate. -/
theorem c9_push_weight_independent :
    (∀ (s : BeltState) (p : Package),
      (Belt.push s p).isPushed =
        decide (s.current_items_count < MAX_BELT_CAPACITY_K)) ∧
    (∀ (s : BeltState) (p : Package) (w : ℚ),
      (Belt.push { s with current_belt_weight := w } p).isPushed =
        (Belt.push s p).isPushed) ∧
    MAX_BELT_WEIGHT_M < (runOps heavyOps).state.current_belt_weight ∧
    (runOps heavyOps).pushedOk.length = 10 := by
  have hmain : ∀ (s : BeltState) (p : Package),
      (Belt.push s p).isPushed =
        decide (s.current_items_count < MAX_BELT_CAPACITY_K) := by
    intro s p
    by_cases hfull : MAX_BELT_CAPACITY_K ≤ s.current_items_count
    · have hnlt : ¬ s.current_items_count < MAX_BELT_CAPACITY_K := by omega
      simp [Belt.push, hfull, PushResult.isPushed, hnlt]
    · have hlt : s.current_items_count < MAX_BELT_CAPACITY_K := by omega
      simp [Belt.push, hfull, PushResult.isPushed, hlt]
  refine ⟨hmain, ?_, ?_, ?_⟩
  · intro s p w
    rw [hmain, hmain]
  · norm_num [heavyOps, runOps, initTrace, initBeltState, stepOp, Belt.push,
      heavyPkg, zeroPackage, MAX_BELT_CAPACITY_K, MAX_BELT_WEIGHT_M,
      List.replicate, List.foldl]
  · norm_num [heavyOps, runOps, initTrace, initBeltState, stepOp, Belt.push,
      heavyPkg, zeroPackage, MAX_BELT_CAPACITY_K,
      List.replicate, List.foldl]

end Warehouse
